import Mathlib

/-!
Verification of the Deliberation & Consensus Engine of the
gemini-agent-governance-kernel repository.

The definitions below are a shallow embedding of the Python source:

* `src/core/verdicts.py`        — verdict schema (`VerdictType`)
* `src/governance/gemini_council.py` — `GeminiCouncil._calculate_consensus`,
  `GeminiCouncil._handle_failure`, the deadlock-band check in
  `GeminiCouncil.deliberate`
* `src/core/gemini_agent.py`    — the model-fallback loop of `GeminiAgent.query`
* `src/governance/mediator.py`  — `MediatorSpawnController`, `HumanGateSystem`,
  `CivilizedMediator.attempt_resolution`
* `src/core/memory_store.py` / `src/core/constraints.py` — `MemoryStore.add_constraint`
* `src/core/event_bus.py`       — singleton `EventBus`, `LoopDetector`

Python floats are modelled as rationals (`ℚ`); `datetime` values as integer
timestamps in seconds; object identity (for the singleton event bus) as
addresses into an explicit heap.
-/

namespace GovernanceKernel

/-! ## Verdict schema (src/core/verdicts.py) -/

/-- The `VerdictType` enum from `src/core/verdicts.py`. -/
inductive VerdictType where
  | PASS
  | WARN
  | FAIL
  | ERROR
deriving DecidableEq, Repr

/-- One processed agent review as consumed by `_calculate_consensus`:
the `verdict` and `confidence` fields of a processed-results entry. -/
structure Review where
  verdict : VerdictType
  confidence : ℚ
deriving DecidableEq, Repr

/-- Per-agent configuration entry (`weight`, `veto_power`) from
`GeminiCouncil.agent_configs`. -/
structure AgentConfig where
  weight : ℚ
  veto_power : Bool
deriving DecidableEq, Repr

/-- The consensus dict produced by `_calculate_consensus`:
keys `decision`, `confidence`, `reason`. -/
structure Consensus where
  decision : String
  confidence : ℚ
  reason : String
deriving DecidableEq, Repr

/-! ## Numeric helpers: Python `round(x, 2)` and `f-string :.2f` formatting,
modelled with exact rational arithmetic (round-half-to-even). -/

/-- Round a rational to the nearest integer, ties to even
(Python `round` semantics on exact values). -/
def roundHalfEven (q : ℚ) : ℤ :=
  let f := ⌊q⌋
  let r := q - (f : ℚ)
  if r < 1/2 then f
  else if 1/2 < r then f + 1
  else if f % 2 = 0 then f else f + 1

/-- Python `round(x, 2)` on exact rational values. -/
def pyRound2 (q : ℚ) : ℚ := (roundHalfEven (q * 100) : ℚ) / 100

/-- Python `f-string` formatting with `:.2f` on exact rational values. -/
def formatFixed2 (q : ℚ) : String :=
  let n := roundHalfEven (q * 100)
  let a := n.natAbs
  let ip := a / 100
  let fp := a % 100
  (if n < 0 then "-" else "") ++ toString ip ++ "." ++
    (if fp < 10 then "0" else "") ++ toString fp

/-! ## Consensus reducer (`GeminiCouncil._calculate_consensus`)

The Python loop iterates `results.items()`; each key is `f"{agent.name}_{i}"`
and the loop recovers the agent name as the prefix of the key before the
first underscore.  We model the
input directly as an ordered list of `(agent_name, review)` pairs, the agent
name being that recovered prefix, and the config as an ordered association
list mirroring `self.agent_configs`. -/

/-- The `self.agent_configs.get(agent_name, {"weight": 1.0, "veto_power": False})`
followed by `config.get("weight", 1.0)` / `config.get("veto_power", False)`. -/
def lookupConfig (configs : List (String × AgentConfig)) (name : String) : AgentConfig :=
  (configs.lookup name).getD ⟨1, false⟩

/-- The `score_map = {PASS: 1.0, WARN: 0.5, FAIL: 0.0, ERROR: 0.0}`. -/
def scoreMap : VerdictType → ℚ
  | .PASS => 1
  | .WARN => 1/2
  | .FAIL => 0
  | .ERROR => 0

/-- The agents collected in `blocking_agents`: those with `veto_power` whose
verdict is `FAIL`, in iteration order. -/
def blockingAgents (results : List (String × Review))
    (configs : List (String × AgentConfig)) : List String :=
  (results.filter fun p =>
    (lookupConfig configs p.1).veto_power && decide (p.2.verdict = VerdictType.FAIL)).map
    Prod.fst

/-- Accumulated `total_score = Σ score_map[verdict] * confidence * weight`. -/
def totalScore (results : List (String × Review))
    (configs : List (String × AgentConfig)) : ℚ :=
  results.foldl
    (fun acc p =>
      acc + scoreMap p.2.verdict * p.2.confidence * (lookupConfig configs p.1).weight)
    0

/-- Accumulated `total_weight = Σ weight`. -/
def totalWeight (results : List (String × Review))
    (configs : List (String × AgentConfig)) : ℚ :=
  results.foldl (fun acc p => acc + (lookupConfig configs p.1).weight) 0

/-- Final banding: `>= 0.7 → PASS`, `>= 0.4 → WARN`, else `FAIL`. -/
def bandDecision (s : ℚ) : String :=
  if s ≥ 7/10 then "PASS" else if s ≥ 2/5 then "WARN" else "FAIL"

/-- The `GeminiCouncil._calculate_consensus` (src/governance/gemini_council.py,
lines 161-198). -/
def calculateConsensus (results : List (String × Review))
    (configs : List (String × AgentConfig)) : Consensus :=
  if blockingAgents results configs = [] then
    if totalWeight results configs = 0 then
      ⟨"FAIL", 0, "No valid votes cast"⟩
    else
      let finalScore := totalScore results configs / totalWeight results configs
      ⟨bandDecision finalScore, pyRound2 finalScore,
        "Weighted Score: " ++ formatFixed2 finalScore⟩
  else
    ⟨"FAIL", 1,
      "Blocked by Veto: " ++ String.intercalate ", " (blockingAgents results configs)⟩

/-- Inputs of the reference scenario of §8 of the spec: two agents with
weights 3.0 (no veto) and 1.0 (no veto), verdicts PASS@0.9 and FAIL@0.9. -/
def c8results : List (String × Review) :=
  [("LeadArchitect", ⟨VerdictType.PASS, 9/10⟩),
   ("AdversarialValidator", ⟨VerdictType.FAIL, 9/10⟩)]

/-- Agent configuration of the reference scenario. -/
def c8configs : List (String × AgentConfig) :=
  [("LeadArchitect", ⟨3, false⟩), ("AdversarialValidator", ⟨1, false⟩)]

/-! ## Council failure policy (`CouncilFailurePolicy`, `GeminiCouncil._handle_failure`)

`deliberate` wraps its whole body in `try/except`: an `asyncio.TimeoutError`
or any other exception reaching the handler returns
`self._handle_failure(msg)`, which either raises (FAIL_CLOSED) or returns a
fallback dict (FAIL_OPEN).  The raise is modelled as `Except.error`. -/

/-- The `CouncilFailurePolicy` enum from `src/governance/gemini_council.py`. -/
inductive CouncilFailurePolicy where
  | FAIL_OPEN
  | FAIL_CLOSED
deriving DecidableEq, Repr

/-- The dict returned by `_handle_failure` in the FAIL_OPEN branch:
a consensus plus the top-level `fallback: True` marker. -/
structure FallbackResult where
  consensus : Consensus
  fallback : Bool
deriving DecidableEq, Repr

/-- The `GeminiCouncil._handle_failure` (src/governance/gemini_council.py,
lines 200-204). -/
def handleFailure (policy : CouncilFailurePolicy) (errorMsg : String) :
    Except String FallbackResult :=
  match policy with
  | .FAIL_CLOSED => .error ("Council Failure (CLOSED): " ++ errorMsg)
  | .FAIL_OPEN =>
    .ok ⟨⟨"WARN", 0, "Council Failed: " ++ errorMsg⟩, true⟩

/-! ## Deadlock mediator (src/governance/mediator.py) -/

/-- The `HumanGateSystem.critical_tasks`. -/
def criticalTasks : List String := ["security", "architecture"]

/-- The `HumanGateSystem.should_require_human` (src/governance/mediator.py,
lines 49-57). -/
def shouldRequireHuman (taskType : String) (confidence : ℚ) : Bool :=
  if taskType ∈ criticalTasks then true
  else if confidence < 4/5 then true
  else false

/-- The `MediatorSpawnController.max_spawns` (always 3 in `__init__`). -/
def maxSpawns : Nat := 3

/-- The `MediatorSpawnController.spawn_cost_multiplier`. -/
def spawnCostMultiplier : List ℚ := [1, 3/2, 2]

/-- The `session_spawns` dict of `MediatorSpawnController`:
an association list from session id to recorded spawn count. -/
structure SpawnController where
  sessionSpawns : List (String × Nat)
deriving DecidableEq, Repr

/-- The `self.session_spawns.get(session_id, 0)`. -/
def spawnCount (sc : SpawnController) (sid : String) : Nat :=
  (sc.sessionSpawns.lookup sid).getD 0

/-- The `self.session_spawns[session_id] = self.session_spawns.get(session_id, 0) + 1`
on an association list. -/
def bumpSpawn : List (String × Nat) → String → List (String × Nat)
  | [], sid => [(sid, 1)]
  | (k, v) :: rest, sid =>
    if k == sid then (k, v + 1) :: rest else (k, v) :: bumpSpawn rest sid

/-- The `MediatorSpawnController.record_spawn`. -/
def recordSpawn (sc : SpawnController) (sid : String) : SpawnController :=
  ⟨bumpSpawn sc.sessionSpawns sid⟩

/-- The answer of the budget ledger to `can_make_request`, restricted to the two
components the mediator reads (`allowed, reason, _, _`).  The ledger itself
(`TokenManager.can_make_request`) is treated as an oracle from the estimated
token count to this verdict. -/
structure LedgerVerdict where
  allowed : Bool
  reason : String
deriving DecidableEq, Repr

/-- The `MediatorSpawnController.can_spawn_mediator` (src/governance/mediator.py,
lines 16-32).  Returns the `(can_spawn, reason)` pair plus the number of
`token_manager.can_make_request` calls made (0 or 1), which instruments the
"without consulting the budget ledger" part of the spec. -/
def canSpawnMediator (sc : SpawnController) (sid : String)
    (ledger : Nat → LedgerVerdict) : Bool × String × Nat :=
  let count := spawnCount sc sid
  if count ≥ maxSpawns then
    (false, "Max spawns (" ++ toString maxSpawns ++ ") reached.", 0)
  else
    let baseCost : ℚ := 4000
    let multiplier := spawnCostMultiplier.getD count 0
    let estimatedCost := (⌊baseCost * multiplier⌋ : ℤ).toNat
    let lv := ledger estimatedCost
    if lv.allowed = false then
      (false, "Budget insufficient: " ++ lv.reason, 1)
    else
      (true, "OK (Attempt " ++ toString (count + 1) ++ ")", 1)

/-- The `_simulate_cove_analysis` output shape. -/
structure Analysis where
  disagreementPoint : String
  analysisConfidence : ℚ
deriving DecidableEq, Repr

/-- The `_simulate_resolution_generation` output shape. -/
structure Resolution where
  verdict : String
  rewrittenInstructions : String
  confidence : ℚ
deriving DecidableEq, Repr

/-- The `CivilizedMediator._simulate_cove_analysis` (fixed simulated output). -/
def simulateCoveAnalysis : Analysis :=
  ⟨"Logic structure vs Security pattern", 17/20⟩

/-- The `CivilizedMediator._validate_constraints` (returns `True` in the source). -/
def validateConstraints (analysis : Analysis) : Bool := true

/-- The `CivilizedMediator._simulate_resolution_generation`. -/
def simulateResolutionGeneration (analysis : Analysis) : Resolution :=
  ⟨"COMPROMISE", "Refactor the logic to separate the security concern.", 41/50⟩

/-- The dict returned by `CivilizedMediator.attempt_resolution`: either the
terminal HALT action with a reason, or APPLY_RESOLUTION with the resolution,
the human-gate flag and the analysis. -/
inductive MediationOutcome where
  | halt (reason : String)
  | applyResolution (resolution : Resolution) (requiresHuman : Bool) (analysis : Analysis)
deriving DecidableEq, Repr

/-- The `CivilizedMediator.attempt_resolution` (src/governance/mediator.py,
lines 70-107).  Returns the outcome, the updated spawn-controller state, and
the number of budget-ledger queries made during the attempt. -/
def attemptResolution (sc : SpawnController) (sid : String)
    (ledger : Nat → LedgerVerdict) : MediationOutcome × SpawnController × Nat :=
  let (canSpawn, reason, queries) := canSpawnMediator sc sid ledger
  if canSpawn = false then
    (.halt reason, sc, queries)
  else
    let sc2 := recordSpawn sc sid
    let analysis := simulateCoveAnalysis
    if validateConstraints analysis = false then
      (.halt "Resolution violated Hard Invariants", sc2, queries)
    else
      let resolution := simulateResolutionGeneration analysis
      let requiresHuman := shouldRequireHuman "general" resolution.confidence
      (.applyResolution resolution requiresHuman analysis, sc2, queries)

/-! ## Deadlock band check in `GeminiCouncil.deliberate` (lines 75-91)

After computing the consensus, `deliberate` checks
`0.4 <= consensus["confidence"] <= 0.6`; inside the band it calls
`self.mediator.attempt_resolution` exactly once, stores the mediation record,
and — when the action is APPLY_RESOLUTION — overrides the decision
(`PASS` iff the resolution verdict is `COMPROMISE`, else `FAIL`) and appends
the rewritten guidance to the reason. -/

/-- Result of the deadlock-check fragment: the (possibly mediated) consensus,
the mediation record if any, the number of mediator invocations made by this
`deliberate` call, and the spawn-controller state afterwards. -/
structure DeadlockOutcome where
  consensus : Consensus
  mediation : Option MediationOutcome
  mediatorInvocations : Nat
  spawnState : SpawnController
deriving DecidableEq, Repr

/-- The deadlock-band fragment of `GeminiCouncil.deliberate`
(src/governance/gemini_council.py, lines 75-91). -/
def runDeadlockCheck (c : Consensus) (sc : SpawnController) (sid : String)
    (ledger : Nat → LedgerVerdict) : DeadlockOutcome :=
  if 2/5 ≤ c.confidence ∧ c.confidence ≤ 3/5 then
    let (mediation, sc2, _) := attemptResolution sc sid ledger
    match mediation with
    | .applyResolution res rh an =>
      ⟨⟨if res.verdict == "COMPROMISE" then "PASS" else "FAIL", c.confidence,
          c.reason ++ " [MEDIATED: " ++ res.rewrittenInstructions ++ "]"⟩,
        some (.applyResolution res rh an), 1, sc2⟩
    | .halt r => ⟨c, some (.halt r), 1, sc2⟩
  else
    ⟨c, none, 0, sc⟩

/-- A ledger oracle that always allows a request (used for concrete runs). -/
def okLedger : Nat → LedgerVerdict := fun _ => ⟨true, "OK"⟩

/-- A spawn controller that has already recorded 3 spawns for session `sess`. -/
def cappedController : SpawnController := ⟨[("sess", 3)]⟩

/-- A fresh spawn controller with no recorded spawns. -/
def freshController : SpawnController := ⟨[]⟩

/-- A mid-band consensus as produced by an all-0.5-confidence deliberation. -/
def midBandConsensus : Consensus := ⟨"WARN", 1/2, "Weighted Score: 0.50"⟩

/-! ## Resilient agent caller (`GeminiAgent.query`, src/core/gemini_agent.py)

The fallback loop of `query` iterates the active model chain.  For each
model the environment (breaker state, transport, structural validation)
determines one of four outcomes, modelled by `ModelOutcome`:

* the circuit breaker is open (`cb.is_open()` — the model is skipped,
  no error string recorded);
* the transport raises an exception with message `msg`
  (error string `f"{model}: {msg}"` recorded);
* the response fails structural validation (`_validate_structure` returns
  `None`; error string `f"{model}: Invalid JSON"` recorded);
* a parsed response is returned (breaker reset, loop exits).

When no model succeeds the loop falls through to
`{"verdict": "ERROR", "confidence": 0.0,
  "reasoning": f"All providers failed: {errors}"}`. -/

/-- Environment outcome for one model in the chain. -/
inductive ModelOutcome where
  | skipped
  | transportError (msg : String)
  | invalidStructure
  | ok (payload : String)
deriving DecidableEq, Repr

/-- A single-quote character, written via its code point. -/
def singleQuote : String := String.singleton (Char.ofNat 39)

/-- Python `repr` of a plain string (without embedded quotes, backslashes or
control characters, which is the case for the error strings built here). -/
def pyStrRepr (s : String) : String := singleQuote ++ s ++ singleQuote

/-- Python `str` of a list of strings, as interpolated by the f-string
`f"All providers failed: {errors}"`. -/
def pyListRepr (xs : List String) : String :=
  "[" ++ String.intercalate ", " (xs.map pyStrRepr) ++ "]"

/-- The error-verdict dict returned when the whole chain fails. -/
structure ErrorVerdictDict where
  verdict : String
  confidence : ℚ
  reasoning : String
deriving DecidableEq, Repr

/-- Result of `GeminiAgent.query`: either the parsed provider response or the
aggregated error verdict.  `query` is a total function — the embedding has no
exception channel, mirroring that the loop catches every per-model
exception. -/
inductive QueryResult where
  | success (payload : String)
  | errorVerdict (v : ErrorVerdictDict)
deriving DecidableEq, Repr

/-- The error string a model contributes to `errors`, if any. -/
def modelErrorString (model : String) : ModelOutcome → Option String
  | .skipped => none
  | .transportError msg => some (model ++ ": " ++ msg)
  | .invalidStructure => some (model ++ ": Invalid JSON")
  | .ok _ => none

/-- The `for model in active_chain` loop of `GeminiAgent.query`
(src/core/gemini_agent.py, lines 70-112), carrying the accumulated
`errors` list. -/
def queryLoop : List (String × ModelOutcome) → List String → QueryResult
  | [], errors =>
    .errorVerdict ⟨"ERROR", 0, "All providers failed: " ++ pyListRepr errors⟩
  | (model, outcome) :: rest, errors =>
    match outcome with
    | .skipped => queryLoop rest errors
    | .transportError msg => queryLoop rest (errors ++ [model ++ ": " ++ msg])
    | .invalidStructure => queryLoop rest (errors ++ [model ++ ": Invalid JSON"])
    | .ok payload => .success payload

/-- Chain selection: a routing override embedded in the context
(`[SYSTEM: Use Model m]`) pins the chain to the single forced model,
otherwise the constructed `model_chain` is used. -/
def activeChain (modelChain : List String) (forcedModel : Option String) :
    List String :=
  match forcedModel with
  | some m => [m]
  | none => modelChain

/-- The `GeminiAgent.query` (src/core/gemini_agent.py, lines 60-112), with the
per-model environment behavior abstracted as `env`. -/
def query (modelChain : List String) (forcedModel : Option String)
    (env : String → ModelOutcome) : QueryResult :=
  queryLoop ((activeChain modelChain forcedModel).map fun m => (m, env m)) []

/-- The error strings accumulated along a chain in which no model succeeds. -/
def chainErrors (chain : List (String × ModelOutcome)) : List String :=
  chain.filterMap fun p => modelErrorString p.1 p.2

/-- The default model chain baked into `GeminiAgent.__init__`. -/
def defaultModelChain : List String :=
  ["gemini-3-pro", "gemini-1.5-pro", "llama-3.3-70b-versatile",
   "gemini-3-flash", "gemini-2.5-flash"]

/-- A concrete failing environment: the first model raises, the others have
open breakers. -/
def allFailEnv : String → ModelOutcome := fun m =>
  if m = "gemini-3-pro" then ModelOutcome.transportError "Gemini API 500" else
  ModelOutcome.skipped

/-! ## Constraint store (src/core/constraints.py, src/core/memory_store.py)

`datetime` values are modelled as integer timestamps in seconds;
`timedelta(days=30)` is the constant `thirtyDays`.  `MemoryStore.add_constraint`
mutates the constraint (anti-poisoning deactivation, experimental expiry) and
appends it to the in-memory list before persisting. -/

/-- The `ConstraintTier` enum from `src/core/constraints.py`. -/
inductive ConstraintTier where
  | IMMUTABLE
  | VALIDATED
  | EXPERIMENTAL
  | LOGGED
deriving DecidableEq, Repr

/-- The `Constraint` model (src/core/constraints.py, lines 17-27), with the
fields `add_constraint` reads or writes.  `metadata` is an association list
of string keys to string values. -/
structure Constraint where
  id : String
  description : String
  pattern : String
  tier : ConstraintTier
  source : String
  created_at : Int
  expires_at : Option Int
  active : Bool
  metadata : List (String × String)
deriving DecidableEq, Repr

/-- The `timedelta(days=30)` in seconds. -/
def thirtyDays : Int := 30 * 86400

/-- The mutations `MemoryStore.add_constraint` applies to the constraint
object before appending it (src/core/memory_store.py, lines 49-60):
anti-poisoning deactivation for patterns shorter than 3 characters, then the
30-day expiry for EXPERIMENTAL constraints without an explicit expiry —
computed from `datetime.now()` at the time of the call, passed here as
`now`. -/
def addConstraintUpdate (now : Int) (c : Constraint) : Constraint :=
  let c1 :=
    if c.pattern.length < 3 then
      { c with active := false,
               metadata := c.metadata ++ [("warning", "Overly broad pattern detected")] }
    else c
  if c1.tier = ConstraintTier.EXPERIMENTAL ∧ c1.expires_at = none then
    { c1 with expires_at := some (now + thirtyDays) }
  else c1

/-- The `MemoryStore.add_constraint`: mutate the constraint, then append it to
`self.constraints` (the subsequent `save()` persists the same list). -/
def addConstraint (now : Int) (constraints : List Constraint) (c : Constraint) :
    List Constraint :=
  constraints ++ [addConstraintUpdate now c]

/-- A concrete EXPERIMENTAL constraint without an explicit expiry, created at
time 0. -/
def expConstraint : Constraint :=
  ⟨"exp-1", "No eval in handlers", "eval(", ConstraintTier.EXPERIMENTAL,
    "reflexion_loop", 0, none, true, []⟩

/-- A concrete VALIDATED constraint with an explicit expiry. -/
def valConstraint : Constraint :=
  ⟨"val-1", "Use parameterized SQL", "execute(", ConstraintTier.VALIDATED,
    "system", 0, some 500, true, []⟩

/-! ## Event bus and loop detector (src/core/event_bus.py)

`EventBus.__new__` stores one instance in the class attribute `_instance`
and returns it from every later construction.  Object identity is modelled
by allocating bus states in an explicit heap: `ebNew` either allocates a
fresh address or returns the stored one.  A subscriber callback is modelled
by a numeric identifier; md5 action signatures are modelled by the raw
`agent:action:target` string they hash (equality of signatures corresponds
to equality of these strings, ignoring md5 collisions). -/

/-- The `LoopDetector.history` (the two bound constants are `max_history = 10`
and `threshold = 3`). -/
structure LoopDetectorState where
  history : List String
deriving DecidableEq, Repr

/-- The `LoopDetector.max_history`. -/
def maxHistory : Nat := 10

/-- The `LoopDetector.threshold`. -/
def loopThreshold : Nat := 3

/-- The `f"{agent}:{action}:{target}"` string whose md5 is the signature. -/
def actionSig (agent action target : String) : String :=
  agent ++ ":" ++ action ++ ":" ++ target

/-- The loop-details dict returned by `LoopDetector.check` on detection. -/
structure LoopInfo where
  agent : String
  action : String
  target : String
  count : Nat
deriving DecidableEq, Repr

/-- The `LoopDetector.check` (src/core/event_bus.py, lines 34-56): append the
signature, trim the history to the last 10 entries, and report a loop when
the last 3 signatures are all equal to the new one. -/
def loopCheck (ld : LoopDetectorState) (agent action target : String) :
    LoopDetectorState × Option LoopInfo :=
  let sig := actionSig agent action target
  let h1 := ld.history ++ [sig]
  let h2 := if h1.length > maxHistory then h1.drop 1 else h1
  if h2.length ≥ loopThreshold then
    if (h2.drop (h2.length - loopThreshold)).all (fun s => s == sig) then
      (⟨h2⟩, some ⟨agent, action, target, loopThreshold⟩)
    else (⟨h2⟩, none)
  else (⟨h2⟩, none)

/-- The payload fields `publish` reads for loop detection
(`data.get("agent"|"action"|"target", "unknown")`). -/
structure EventData where
  agent : String := "unknown"
  action : String := "unknown"
  target : String := "unknown"
deriving DecidableEq, Repr

/-- The state of one `EventBus` object: the `subscribers` dict (event type to
list of callback identifiers, in subscription order) and the embedded loop
detector. -/
structure BusState where
  subscribers : List (String × List Nat)
  loopDetector : LoopDetectorState
deriving DecidableEq, Repr

/-- The `self.subscribers.setdefault(event_type, []).append(callback)` on an
association list (the shape of `EventBus.subscribe`). -/
def addSub : List (String × List Nat) → String → Nat → List (String × List Nat)
  | [], et, cb => [(et, [cb])]
  | (k, cbs) :: rest, et, cb =>
    if k == et then (k, cbs ++ [cb]) :: rest else (k, cbs) :: addSub rest et cb

/-- The `self.subscribers[event_type]`, empty when the key is absent (in which
case `publish` returns early and invokes nothing). -/
def getSubs : List (String × List Nat) → String → List Nat
  | [], _ => []
  | (k, cbs) :: rest, et => if k == et then cbs else getSubs rest et

/-- The `EventBus.subscribe` applied to one bus state. -/
def subscribeBus (bus : BusState) (etype : String) (cb : Nat) : BusState :=
  ⟨addSub bus.subscribers etype cb, bus.loopDetector⟩

/-- The callbacks the standard dispatch of `publish` invokes. -/
def dispatch (bus : BusState) (etype : String) : List Nat :=
  getSubs bus.subscribers etype

/-- The `EventBus.publish` applied to one bus state (src/core/event_bus.py,
lines 76-100): run loop detection on agent-action events (auto-publishing a
`loop_detected` event, whose own dispatch cannot recurse because
`"loop_detected" != "agent_action"`), then dispatch to the subscribers of
the event type.  Returns the updated state and the `(event_type, callback)`
invocations in order. -/
def publishAt (bus : BusState) (etype : String) (data : EventData) :
    BusState × List (String × Nat) :=
  if etype == "agent_action" then
    let lc := loopCheck bus.loopDetector data.agent data.action data.target
    let bus2 : BusState := ⟨bus.subscribers, lc.1⟩
    let inner : List (String × Nat) :=
      match lc.2 with
      | some _ => (dispatch bus2 "loop_detected").map (fun cb => ("loop_detected", cb))
      | none => []
    (bus2, inner ++ (dispatch bus2 etype).map (fun cb => (etype, cb)))
  else
    (bus, (dispatch bus etype).map (fun cb => (etype, cb)))

/-- A freshly constructed bus (`subscribers = {}`, empty history). -/
def initBus : BusState := ⟨[], ⟨[]⟩⟩

/-- Process-wide state: the heap of allocated bus objects and the class
attribute `EventBus._instance` (an address, when set). -/
structure ProcState where
  heap : List BusState
  instanceAddr : Option Nat
deriving DecidableEq, Repr

/-- The `EventBus.__new__` (src/core/event_bus.py, lines 64-69): allocate and
record the singleton on first construction, return the recorded address on
every later construction. -/
def ebNew : ProcState → Nat × ProcState
  | ⟨heap, some a⟩ => (a, ⟨heap, some a⟩)
  | ⟨heap, none⟩ => (heap.length, ⟨heap ++ [initBus], some heap.length⟩)

/-- The `subscribe` through an object reference (heap address). -/
def procSubscribe (s : ProcState) (addr : Nat) (etype : String) (cb : Nat) :
    ProcState :=
  ⟨s.heap.set addr (subscribeBus (s.heap.getD addr initBus) etype cb),
    s.instanceAddr⟩

/-- The `publish` through an object reference (heap address). -/
def procPublish (s : ProcState) (addr : Nat) (etype : String) (data : EventData) :
    ProcState × List (String × Nat) :=
  let r := publishAt (s.heap.getD addr initBus) etype data
  (⟨s.heap.set addr r.1, s.instanceAddr⟩, r.2)

/-- Well-formedness of a process state: a recorded singleton address points
into the heap. -/
def WFproc (s : ProcState) : Prop :=
  ∀ a, s.instanceAddr = some a → a < s.heap.length

end GovernanceKernel

namespace GovernanceKernel

/-! ## Theorems for the consensus reducer -/

/-- Claim C1 (veto dominance): whenever some agent in the results has
`veto_power` in its configuration and verdict `FAIL`, the consensus is
decision `FAIL`, confidence `1.0`, and the reason names all vetoing agents
(every veto-capable agent with verdict FAIL appears in the cited list),
regardless of the other verdicts, confidences and weights. -/
theorem c1_veto_dominance (results : List (String × Review))
    (configs : List (String × AgentConfig))
    (h : ∃ p ∈ results,
      (lookupConfig configs p.1).veto_power = true ∧ p.2.verdict = VerdictType.FAIL) :
    (calculateConsensus results configs).decision = "FAIL"
    ∧ (calculateConsensus results configs).confidence = 1
    ∧ (calculateConsensus results configs).reason =
        "Blocked by Veto: " ++ String.intercalate ", " (blockingAgents results configs)
    ∧ ∀ p ∈ results,
        (lookupConfig configs p.1).veto_power = true → p.2.verdict = VerdictType.FAIL →
        p.1 ∈ blockingAgents results configs := by
  obtain ⟨p, hp, hveto, hfail⟩ := h
  have hmem : p.1 ∈ blockingAgents results configs := by
    unfold blockingAgents
    exact List.mem_map_of_mem Prod.fst
      (List.mem_filter.mpr ⟨hp, by simp [hveto, hfail]⟩)
  have hne : blockingAgents results configs ≠ [] := List.ne_nil_of_mem hmem
  refine ⟨?_, ?_, ?_, ?_⟩
  · rw [calculateConsensus, if_neg hne]
  · rw [calculateConsensus, if_neg hne]
  · rw [calculateConsensus, if_neg hne]
  · intro q hq hqv hqf
    unfold blockingAgents
    exact List.mem_map_of_mem Prod.fst
      (List.mem_filter.mpr ⟨hq, by simp [hqv, hqf]⟩)

/-- Witness for C1: a concrete two-agent scenario in which the veto-capable
validator fails; the consensus is FAIL at confidence 1. -/
theorem c1_veto_dominance_witness :
    (calculateConsensus c8results
        [("AdversarialValidator", AgentConfig.mk 1 true)]).decision = "FAIL"
    ∧ (calculateConsensus c8results
        [("AdversarialValidator", AgentConfig.mk 1 true)]).confidence = 1 :=
  ⟨(c1_veto_dominance c8results [("AdversarialValidator", AgentConfig.mk 1 true)]
      ⟨("AdversarialValidator", ⟨VerdictType.FAIL, 9/10⟩),
        by simp [c8results], rfl, rfl⟩).1,
    (c1_veto_dominance c8results [("AdversarialValidator", AgentConfig.mk 1 true)]
      ⟨("AdversarialValidator", ⟨VerdictType.FAIL, 9/10⟩),
        by simp [c8results], rfl, rfl⟩).2.1⟩

/-- Claim C7: with zero accumulated total weight and no veto firing, the
reducer returns decision FAIL with confidence 0.0. -/
theorem c7_zero_weight_fails (results : List (String × Review))
    (configs : List (String × AgentConfig))
    (hveto : blockingAgents results configs = [])
    (hw : totalWeight results configs = 0) :
    calculateConsensus results configs = ⟨"FAIL", 0, "No valid votes cast"⟩ := by
  rw [calculateConsensus, if_pos hveto, if_pos hw]

/-- Witness for C7: the empty verdict set has no vetoes and zero total
weight, and the reducer returns FAIL at confidence 0. -/
theorem c7_zero_weight_fails_witness :
    blockingAgents [] [] = [] ∧ totalWeight [] [] = 0
    ∧ calculateConsensus [] [] = ⟨"FAIL", 0, "No valid votes cast"⟩ :=
  ⟨rfl, rfl, c7_zero_weight_fails [] [] rfl rfl⟩

/-- Counterexample for claim C8: on the reference scenario (weights 3.0/1.0,
no veto, PASS@0.9 and FAIL@0.9) the weighted score is exactly
27/40 = 0.675, and the reducer returns decision WARN — not PASS as the
claim states, since 0.675 is below the 0.70 PASS threshold. -/
theorem c8_scenario_counterexample :
    totalScore c8results c8configs / totalWeight c8results c8configs = 27/40
    ∧ (calculateConsensus c8results c8configs).decision ≠ "PASS" := by
  constructor
  · simp [totalScore, totalWeight, c8results, c8configs, lookupConfig, scoreMap,
      List.lookup]
    norm_num
  · simp [calculateConsensus, blockingAgents, c8results, c8configs, lookupConfig,
      totalScore, totalWeight, bandDecision, scoreMap, List.lookup]
    norm_num
    simp

/-- Claim C8 as amended: on the reference scenario the reducer computes the
weighted score (1.0×0.9×3 + 0×0.9×1)/4 = 0.675 and returns decision WARN
(0.675 falls in the [0.40, 0.70) WARN band). -/
theorem c8_scenario_amended :
    totalScore c8results c8configs / totalWeight c8results c8configs = 27/40
    ∧ (calculateConsensus c8results c8configs).decision = "WARN" := by
  constructor
  · simp [totalScore, totalWeight, c8results, c8configs, lookupConfig, scoreMap,
      List.lookup]
    norm_num
  · simp [calculateConsensus, blockingAgents, c8results, c8configs, lookupConfig,
      totalScore, totalWeight, bandDecision, scoreMap, List.lookup]
    norm_num

/-! ## Theorems for the failure policy, mediator and deadlock band -/

/-- Claim C3 (deliberation failure policy): when a timeout or unexpected
exception reaches `_handle_failure`, policy FAIL_OPEN yields a returned
result whose consensus decision is WARN with the `fallback=true` marker,
and policy FAIL_CLOSED raises a fatal governance exception (modelled as
`Except.error`) instead of returning a result. -/
theorem c3_failure_policy (errorMsg : String) :
    handleFailure CouncilFailurePolicy.FAIL_OPEN errorMsg =
      Except.ok ⟨⟨"WARN", 0, "Council Failed: " ++ errorMsg⟩, true⟩
    ∧ handleFailure CouncilFailurePolicy.FAIL_CLOSED errorMsg =
      Except.error ("Council Failure (CLOSED): " ++ errorMsg) :=
  ⟨rfl, rfl⟩

/-- Claim C5 (mediator human gate): task types "security" and "architecture"
always require human ratification regardless of confidence; any other task
type requires it exactly when the resolution confidence is below 0.8. -/
theorem c5_human_gate (taskType : String) (confidence : ℚ) :
    ((taskType = "security" ∨ taskType = "architecture") →
      shouldRequireHuman taskType confidence = true)
    ∧ (taskType ≠ "security" → taskType ≠ "architecture" →
      (shouldRequireHuman taskType confidence = true ↔ confidence < 4/5)) := by
  constructor
  · intro h
    rcases h with h | h <;> simp [shouldRequireHuman, criticalTasks, h]
  · intro h1 h2
    simp [shouldRequireHuman, criticalTasks, h1, h2]

/-- Witness for C5: a security task at confidence 0.9 requires a human, and
a general task requires one exactly when its confidence is below 0.8. -/
theorem c5_human_gate_witness :
    shouldRequireHuman "security" (9/10) = true
    ∧ (shouldRequireHuman "general" (9/10) = true ↔ (9/10 : ℚ) < 4/5) :=
  ⟨(c5_human_gate "security" (9/10)).1 (Or.inl rfl),
   (c5_human_gate "general" (9/10)).2 (by decide) (by decide)⟩

/-- Claim C6 (mediator spawn cap): once 3 spawns are recorded for a session,
every further `attempt_resolution` for that session returns the terminal
HALT action with the max-spawns reason, leaves the spawn state unchanged,
and performs no `can_make_request` ledger query. -/
theorem c6_spawn_cap (sc : SpawnController) (sid : String)
    (ledger : Nat → LedgerVerdict) (h : spawnCount sc sid ≥ 3) :
    attemptResolution sc sid ledger =
      (MediationOutcome.halt "Max spawns (3) reached.", sc, 0) := by
  have hcap : spawnCount sc sid ≥ maxSpawns := h
  unfold attemptResolution canSpawnMediator
  rw [if_pos hcap]
  rfl

/-- Witness for C6: a controller with 3 recorded spawns for session `sess`
halts with the max-spawns reason and zero ledger queries. -/
theorem c6_spawn_cap_witness :
    spawnCount cappedController "sess" ≥ 3
    ∧ attemptResolution cappedController "sess" okLedger =
        (MediationOutcome.halt "Max spawns (3) reached.", cappedController, 0) :=
  ⟨by decide,
   c6_spawn_cap cappedController "sess" okLedger (by decide)⟩

/-- Claim C4 (deadlock band): a consensus confidence inside the closed band
[0.40, 0.60] triggers exactly one mediator invocation in the deliberate
call (here under the proviso of the claim that the spawn cap is not yet
exhausted), and a confidence outside the band triggers none. -/
theorem c4_deadlock_band (c : Consensus) (sc : SpawnController) (sid : String)
    (ledger : Nat → LedgerVerdict) :
    (spawnCount sc sid < maxSpawns →
      (2/5 ≤ c.confidence ∧ c.confidence ≤ 3/5) →
      (runDeadlockCheck c sc sid ledger).mediatorInvocations = 1)
    ∧ (¬(2/5 ≤ c.confidence ∧ c.confidence ≤ 3/5) →
      (runDeadlockCheck c sc sid ledger).mediatorInvocations = 0) := by
  constructor
  · intro _ hband
    unfold runDeadlockCheck
    rw [if_pos hband]
    rcases h : attemptResolution sc sid ledger with ⟨m, sc2, q⟩
    cases m <;> simp
  · intro hband
    unfold runDeadlockCheck
    rw [if_neg hband]

/-- Witness for C4: a fresh session whose consensus confidence is 0.5 makes
exactly one mediator invocation. -/
theorem c4_deadlock_band_witness :
    spawnCount freshController "sess" < maxSpawns
    ∧ (2/5 ≤ midBandConsensus.confidence ∧ midBandConsensus.confidence ≤ 3/5)
    ∧ (runDeadlockCheck midBandConsensus freshController "sess"
        okLedger).mediatorInvocations = 1 :=
  ⟨by decide, by norm_num [midBandConsensus],
   (c4_deadlock_band midBandConsensus freshController "sess" okLedger).1
     (by decide) (by norm_num [midBandConsensus])⟩

/-! ## Theorems for the resilient agent caller -/

/-- Helper for C2: if no model in the (remaining) chain succeeds, the
fallback loop returns the aggregated ERROR verdict, appending the error
strings of the chain to those already accumulated. -/
theorem queryLoop_all_fail (chain : List (String × ModelOutcome))
    (errors : List String)
    (h : ∀ p ∈ chain, ∀ x, p.2 ≠ ModelOutcome.ok x) :
    queryLoop chain errors =
      QueryResult.errorVerdict ⟨"ERROR", 0,
        "All providers failed: " ++ pyListRepr (errors ++ chainErrors chain)⟩ := by
  induction chain generalizing errors with
  | nil => simp [queryLoop, chainErrors]
  | cons p rest ih =>
    obtain ⟨model, outcome⟩ := p
    have hrest : ∀ q ∈ rest, ∀ x, q.2 ≠ ModelOutcome.ok x :=
      fun q hq => h q (List.mem_cons_of_mem _ hq)
    cases outcome with
    | skipped =>
      rw [queryLoop, ih _ hrest]
      simp [chainErrors, modelErrorString]
    | transportError msg =>
      rw [queryLoop, ih _ hrest]
      simp [chainErrors, modelErrorString]
    | invalidStructure =>
      rw [queryLoop, ih _ hrest]
      simp [chainErrors, modelErrorString]
    | ok payload =>
      exact absurd rfl (h (model, ModelOutcome.ok payload) (List.mem_cons_self _ _) payload)

/-- Claim C2: when every model in the active chain is skipped (open breaker)
or fails (transport exception or structurally invalid response), `query`
returns — it never raises, being a total function into `QueryResult` — the
verdict-ERROR dict with confidence 0.0 whose reasoning aggregates the
per-model error strings accumulated along the chain. -/
theorem c2_query_error_aggregation (modelChain : List String)
    (forcedModel : Option String) (env : String → ModelOutcome)
    (h : ∀ m ∈ activeChain modelChain forcedModel, ∀ x, env m ≠ ModelOutcome.ok x) :
    query modelChain forcedModel env =
      QueryResult.errorVerdict ⟨"ERROR", 0,
        "All providers failed: " ++
          pyListRepr (chainErrors ((activeChain modelChain forcedModel).map
            fun m => (m, env m)))⟩ := by
  unfold query
  rw [queryLoop_all_fail]
  · simp
  · intro p hp x
    obtain ⟨m, hm, rfl⟩ := List.mem_map.mp hp
    exact h m hm x

/-- Witness for C2: on the default chain with the first model raising and
the rest skipped by open breakers, `query` returns the ERROR verdict whose
reasoning lists the single accumulated error string. -/
theorem c2_query_error_aggregation_witness :
    query defaultModelChain none allFailEnv =
      QueryResult.errorVerdict ⟨"ERROR", 0,
        "All providers failed: " ++
          pyListRepr (chainErrors ((activeChain defaultModelChain none).map
            fun m => (m, allFailEnv m)))⟩ :=
  c2_query_error_aggregation defaultModelChain none allFailEnv
    (by
      intro m hm x
      simp [activeChain, defaultModelChain] at hm
      rcases hm with h | h | h | h | h <;> simp [h, allFailEnv])

/-! ## Theorems for the constraint store -/

/-- Counterexample for claim C9: `add_constraint` computes the expiry from
`datetime.now()` at the time of the call, not from the `created_at` field
of the constraint.  An EXPERIMENTAL constraint created at time 0 but added one
day later (now = 86400) receives expiry 86400 + 30 days, which is not
exactly 30 days after its creation time. -/
theorem c9_expiry_counterexample :
    expConstraint.tier = ConstraintTier.EXPERIMENTAL
    ∧ expConstraint.expires_at = none
    ∧ (addConstraintUpdate 86400 expConstraint).expires_at ≠
        some (expConstraint.created_at + thirtyDays) := by
  refine ⟨rfl, rfl, ?_⟩
  decide

/-- Claim C9 as amended: an EXPERIMENTAL constraint added without an explicit
expiry is assigned an expiry exactly 30 days after the time of the
`add_constraint` call (which coincides with its creation time only when it
is added at the moment it is created); constraints of other tiers, or with
an explicit expiry, keep their `expires_at` unchanged; the updated
constraint is appended to the store. -/
theorem c9_expiry_amended (now : Int) (cs : List Constraint) (c : Constraint) :
    addConstraint now cs c = cs ++ [addConstraintUpdate now c]
    ∧ (c.tier = ConstraintTier.EXPERIMENTAL → c.expires_at = none →
        (addConstraintUpdate now c).expires_at = some (now + thirtyDays))
    ∧ ((c.tier ≠ ConstraintTier.EXPERIMENTAL ∨ c.expires_at ≠ none) →
        (addConstraintUpdate now c).expires_at = c.expires_at) := by
  refine ⟨rfl, ?_, ?_⟩
  · intro ht he
    unfold addConstraintUpdate
    by_cases hp : c.pattern.length < 3 <;> simp [hp, ht, he]
  · intro h
    unfold addConstraintUpdate
    by_cases hp : c.pattern.length < 3
    · rcases h with h | h <;> simp [hp, h]
    · rcases h with h | h <;> simp [hp, h]

/-- Witness for C9 (amended): the experimental constraint added at time
86400 expires at 86400 + 30 days, and the validated constraint keeps its
explicit expiry. -/
theorem c9_expiry_amended_witness :
    (addConstraintUpdate 86400 expConstraint).expires_at = some (86400 + thirtyDays)
    ∧ (addConstraintUpdate 86400 valConstraint).expires_at = valConstraint.expires_at :=
  ⟨(c9_expiry_amended 86400 [] expConstraint).2.1 rfl rfl,
   (c9_expiry_amended 86400 [] valConstraint).2.2 (Or.inl (by decide))⟩

/-! ## Theorems for the event bus -/

/-- A callback just subscribed for an event type is among the subscribers
of that event type. -/
theorem mem_getSubs_addSub (subs : List (String × List Nat)) (et : String)
    (cb : Nat) : cb ∈ getSubs (addSub subs et cb) et := by
  induction subs with
  | nil => simp [addSub, getSubs]
  | cons p rest ih =>
    obtain ⟨k, cbs⟩ := p
    by_cases hk : k == et
    · simp [addSub, hk, getSubs]
    · simp only [addSub, getSubs, hk, if_false, Bool.false_eq_true]
      exact ih

/-- Reading back an in-bounds heap cell that was just written. -/
theorem getD_set_self {α : Type} (l : List α) (n : Nat) (x d : α)
    (h : n < l.length) : (l.set n x).getD n d = x := by
  induction l generalizing n with
  | nil => simp at h
  | cons a t ih =>
    cases n with
    | zero => rfl
    | succ m => exact ih m (Nat.lt_of_succ_lt_succ h)

/-- The `publish` invokes every subscriber of the published event type,
whether or not the event is an agent action and whether or not a loop is
detected. -/
theorem mem_publishAt (bus : BusState) (etype : String) (data : EventData)
    (cb : Nat) (h : cb ∈ getSubs bus.subscribers etype) :
    (etype, cb) ∈ (publishAt bus etype data).2 := by
  unfold publishAt
  cases he : etype == "agent_action" with
  | false =>
    simp only [he, Bool.false_eq_true, if_false]
    exact List.mem_map_of_mem _ h
  | true =>
    simp only [he, if_true]
    exact List.mem_append_right _ (List.mem_map_of_mem _ h)

/-- Subscribing through one reference and publishing through another
reference to the same object delivers the event. -/
theorem subscribe_publish_delivers (s : ProcState) (a : Nat)
    (ha : a < s.heap.length) (etype : String) (cb : Nat) (data : EventData) :
    (etype, cb) ∈ (procPublish (procSubscribe s a etype cb) a etype data).2 := by
  show (etype, cb) ∈
    (publishAt ((s.heap.set a (subscribeBus (s.heap.getD a initBus) etype cb)).getD
      a initBus) etype data).2
  rw [getD_set_self s.heap a (subscribeBus (s.heap.getD a initBus) etype cb) initBus ha]
  exact mem_publishAt _ _ _ _ (mem_getSubs_addSub _ _ _)

/-- Claim C10 (singleton event bus): constructing `EventBus()` twice returns
the identical instance and leaves the process state unchanged, so the
subscriber map and loop-detector history are shared; consequently a callback
subscribed through the first reference is invoked for matching events
published through the second reference. -/
theorem c10_singleton_event_bus (s : ProcState) (hwf : WFproc s) :
    (ebNew (ebNew s).2).1 = (ebNew s).1
    ∧ (ebNew (ebNew s).2).2 = (ebNew s).2
    ∧ ∀ (etype : String) (cb : Nat) (data : EventData),
        (etype, cb) ∈
          (procPublish (procSubscribe (ebNew s).2 (ebNew s).1 etype cb)
            (ebNew (ebNew s).2).1 etype data).2 := by
  obtain ⟨heap, inst⟩ := s
  cases inst with
  | some a =>
    refine ⟨rfl, rfl, ?_⟩
    intro etype cb data
    exact subscribe_publish_delivers _ a (hwf a rfl) etype cb data
  | none =>
    refine ⟨rfl, rfl, ?_⟩
    intro etype cb data
    exact subscribe_publish_delivers ⟨heap ++ [initBus], some heap.length⟩
      heap.length (by simp) etype cb data

/-- Witness for C10: starting from the empty process state, a callback
subscribed through the first constructed reference receives a
consensus-reached event published through the second constructed
reference. -/
theorem c10_singleton_event_bus_witness :
    WFproc ⟨[], none⟩
    ∧ ("consensus_reached", 5) ∈
        (procPublish
          (procSubscribe (ebNew ⟨[], none⟩).2 (ebNew ⟨[], none⟩).1
            "consensus_reached" 5)
          (ebNew (ebNew ⟨[], none⟩).2).1 "consensus_reached"
          ⟨"unknown", "unknown", "unknown"⟩).2 :=
  ⟨fun a h => by simp at h,
   (c10_singleton_event_bus ⟨[], none⟩ (fun a h => by simp at h)).2.2
     "consensus_reached" 5 ⟨"unknown", "unknown", "unknown"⟩⟩

end GovernanceKernel
